import Mathlib

/-!
Shallow embedding of `docs/create_presentation.py` (WMSOpti repository).

The script builds a PPTX deck with python-pptx through four slide-builder
functions: `add_title_slide`, `add_content_slide`, `add_diagram_slide` and
`add_table_slide`.  Each builder adds shapes (rectangles, text boxes, one
table) to a blank slide.  We model a slide as the ordered list of shapes the
builder adds, with positions and sizes in inches (as rationals), font sizes
and paragraph spacing in points (as naturals), and colors as RGB triples.

python-pptx semantics reflected here:
  * a freshly created text frame holds exactly one empty paragraph
    (`tf.paragraphs[0]`); `tf.add_paragraph()` appends a further empty one;
  * `cell.text = s` replaces the cell's content with a single paragraph whose
    text is `s`;
  * `table.cell(r, c)` raises `IndexError` when the index is out of range —
    modelled by `Except String` with error `"IndexError"`;
  * Python truthiness: an empty string or an empty/absent list is falsy.
-/

/-- An RGB color, as produced by `RGBColor(r, g, b)`. -/
structure RGB where
  r : Nat
  g : Nat
  b : Nat
deriving DecidableEq, Repr

/-- Paragraph alignment (`PP_ALIGN.LEFT` / `PP_ALIGN.CENTER`); `none` on the
paragraph means the alignment was never assigned. -/
inductive Align where
  | left
  | center
deriving DecidableEq, Repr

/-- Font attributes of a paragraph; `none` means the attribute was never
assigned (inherits the library default). -/
structure Font where
  size : Option Nat := none
  bold : Option Bool := none
  italic : Option Bool := none
  name : Option String := none
  color : Option RGB := none
deriving DecidableEq, Repr

/-- One paragraph of a text frame.  A freshly created paragraph has empty
text, a default font, no alignment, no spacing and level 0. -/
structure Paragraph where
  text : String := ""
  font : Font := {}
  alignment : Option Align := none
  space_before : Option Nat := none
  level : Nat := 0
deriving DecidableEq, Repr

/-- A text frame.  A new frame starts with exactly one empty paragraph. -/
structure TextFrame where
  paragraphs : List Paragraph := [{}]
  word_wrap : Option Bool := none
  margin_left : Option ℚ := none
  margin_top : Option ℚ := none
deriving DecidableEq, Repr

/-- Fill state of a shape or of its outline: untouched, solid color
(`fill.solid(); fill.fore_color.rgb = c`), or `fill.background()`. -/
inductive Fill where
  | default
  | solidFill (c : RGB)
  | background
deriving DecidableEq, Repr

/-- One table cell: its text frame and its fill. -/
structure TableCell where
  tf : TextFrame := {}
  fill : Fill := .default
deriving DecidableEq, Repr

/-- The content payload of a shape: a text frame, or a table grid. -/
inductive ShapeContent where
  | textFrame (tf : TextFrame)
  | table (cells : List (List TableCell))
deriving DecidableEq, Repr

/-- A shape placed on a slide: position and size in inches, fill, outline
fill, and content. -/
structure Shape where
  left : ℚ
  top : ℚ
  width : ℚ
  height : ℚ
  fill : Fill := .default
  line : Fill := .default
  content : ShapeContent
deriving DecidableEq, Repr

/-- A slide: the ordered list of shapes the builder added to it. -/
abbrev Slide := List Shape

/-- A table grid. -/
abbrev Grid := List (List TableCell)

/-- A cell value passed to the table builder; `str(value)` is modelled by
`pyStr`. -/
inductive Value where
  | str (s : String)
  | int (n : Int)
deriving DecidableEq, Repr

/-- Python's `str` coercion on a cell value. -/
def pyStr : Value → String
  | .str s => s
  | .int n => toString n

/-- Canvas width in inches (`prs.slide_width = Inches(10)`). -/
def canvasWidth : ℚ := 10

/-- Canvas height in inches (`prs.slide_height = Inches(7.5)`). -/
def canvasHeight : ℚ := 15 / 2

/-- Python truthiness of an optional list argument (`if bullets:`). -/
def pyTruthyList : Option (List String) → Bool
  | some (_ :: _) => true
  | _ => false

/-! ## add_title_slide -/

/-- The title banner of `add_title_slide`: a rectangle at
`Inches(0.5), Inches(2.5), Inches(9), Inches(1.5)`, solid fill
`RGBColor(0,112,192)`, outline background; text frame with word wrap and one
paragraph holding the title at `Pt(40)`, bold, white, centered. -/
def titleBanner (title : String) : Shape :=
  { left := 1/2, top := 5/2, width := 9, height := 3/2
    fill := .solidFill ⟨0, 112, 192⟩
    line := .background
    content := .textFrame
      { paragraphs := [{ text := title
                         font := { size := some 40, bold := some true
                                   color := some ⟨255, 255, 255⟩ }
                         alignment := some .center }]
        word_wrap := some true } }

/-- The subtitle text box of `add_title_slide`: a text box at
`Inches(0.5), Inches(4.2), Inches(9), Inches(0.8)` with one paragraph holding
the subtitle at `Pt(24)`, gray `RGBColor(100,100,100)`, centered. -/
def subtitleBox (subtitle : String) : Shape :=
  { left := 1/2, top := 21/5, width := 9, height := 4/5
    content := .textFrame
      { paragraphs := [{ text := subtitle
                         font := { size := some 24
                                   color := some ⟨100, 100, 100⟩ }
                         alignment := some .center }] } }

/-- `add_title_slide(prs, title, subtitle="")`: the banner, then — only when
the subtitle string is truthy (non-empty) — the subtitle box. -/
def add_title_slide (title subtitle : String) : Slide :=
  titleBanner title :: (if subtitle = "" then [] else [subtitleBox subtitle])

/-! ## shared header band and the bullet loop -/

/-- The header bar of `add_content_slide`: rectangle at
`Inches(0), Inches(0), Inches(10), Inches(1.2)`, solid `RGBColor(0,112,192)`,
outline background; word wrap set, title paragraph `Pt(32)` bold white with
`PP_ALIGN.LEFT`, text-frame margins `0.5` / `0.3`. -/
def headerBandContent (title : String) : Shape :=
  { left := 0, top := 0, width := 10, height := 6/5
    fill := .solidFill ⟨0, 112, 192⟩
    line := .background
    content := .textFrame
      { paragraphs := [{ text := title
                         font := { size := some 32, bold := some true
                                   color := some ⟨255, 255, 255⟩ }
                         alignment := some .left }]
        word_wrap := some true
        margin_left := some (1/2)
        margin_top := some (3/10) } }

/-- The header bar of `add_diagram_slide` and `add_table_slide`: same
rectangle and title styling as the content header, but the source sets
neither `word_wrap` nor the paragraph alignment there. -/
def headerBandPlain (title : String) : Shape :=
  { left := 0, top := 0, width := 10, height := 6/5
    fill := .solidFill ⟨0, 112, 192⟩
    line := .background
    content := .textFrame
      { paragraphs := [{ text := title
                         font := { size := some 32, bold := some true
                                   color := some ⟨255, 255, 255⟩ } }]
        margin_left := some (1/2)
        margin_top := some (3/10) } }

/-- The bullet loop shared by `add_content_slide` and `add_diagram_slide`:
`for i, bullet in enumerate(bullets)` — index 0 mutates the frame's existing
first paragraph (`tf.paragraphs[0]`), every later index appends a new
paragraph (`tf.add_paragraph()`); each paragraph is then set from the bullet
string by `mk`. -/
def bulletLoopFrom (mk : String → Paragraph) (i : Nat) (tf : TextFrame) :
    List String → TextFrame
  | [] => tf
  | b :: bs =>
      let tf2 : TextFrame :=
        if i = 0 then { tf with paragraphs := tf.paragraphs.set 0 (mk b) }
        else { tf with paragraphs := tf.paragraphs ++ [mk b] }
      bulletLoopFrom mk (i + 1) tf2 bs

/-- The bullet loop, started at index 0. -/
def bulletLoop (mk : String → Paragraph) (tf : TextFrame)
    (bullets : List String) : TextFrame :=
  bulletLoopFrom mk 0 tf bullets

/-! ## add_content_slide -/

/-- A body paragraph of `add_content_slide`: the bullet text at `Pt(20)` with
`space_before = Pt(12)` and level 0. -/
def contentBullet (b : String) : Paragraph :=
  { text := b
    font := { size := some 20 }
    space_before := some 12
    level := 0 }

/-- The note text box of `add_content_slide`: a text box at
`Inches(0.5), Inches(6.5), Inches(9), Inches(0.5)` holding the note at
`Pt(14)`, italic, gray `RGBColor(128,128,128)`. -/
def noteBox (note : String) : Shape :=
  { left := 1/2, top := 13/2, width := 9, height := 1/2
    content := .textFrame
      { paragraphs := [{ text := note
                         font := { size := some 14, italic := some true
                                   color := some ⟨128, 128, 128⟩ } }] } }

/-- `add_content_slide(prs, title, bullets, note="")`: header bar, body text
box at `Inches(0.5), Inches(1.5), Inches(9), Inches(5)` filled by the bullet
loop, then — only when the note string is truthy — the note box. -/
def add_content_slide (title : String) (bullets : List String)
    (note : String) : Slide :=
  headerBandContent title
    :: { left := 1/2, top := 3/2, width := 9, height := 5
         content := .textFrame
           (bulletLoop contentBullet { word_wrap := some true } bullets) }
    :: (if note = "" then [] else [noteBox note])

/-! ## add_diagram_slide -/

/-- The diagram box of `add_diagram_slide`: rectangle at
`Inches(0.5), Inches(1.5), Inches(9), Inches(2.5)`, solid light gray
`RGBColor(240,240,240)`, outline line color `RGBColor(200,200,200)`; word
wrap, margins `0.2` / `0.2`, one paragraph holding the diagram text at
`Pt(14)` in `"Courier New"`, black. -/
def diagramBox (diagram_text : String) : Shape :=
  { left := 1/2, top := 3/2, width := 9, height := 5/2
    fill := .solidFill ⟨240, 240, 240⟩
    line := .solidFill ⟨200, 200, 200⟩
    content := .textFrame
      { paragraphs := [{ text := diagram_text
                         font := { size := some 14
                                   name := some "Courier New"
                                   color := some ⟨0, 0, 0⟩ } }]
        word_wrap := some true
        margin_left := some (1/5)
        margin_top := some (1/5) } }

/-- A bullet paragraph of `add_diagram_slide`: `Pt(18)`, black,
`space_before = Pt(8)`. -/
def diagramBullet (b : String) : Paragraph :=
  { text := b
    font := { size := some 18, color := some ⟨0, 0, 0⟩ }
    space_before := some 8 }

/-- `add_diagram_slide(prs, title, diagram_text, bullets=None)`: plain header
bar, diagram box, then — only when `bullets` is truthy (present and
non-empty) — a text box at `Inches(0.5), Inches(4.2), Inches(9), Inches(2.5)`
filled by the bullet loop. -/
def add_diagram_slide (title diagram_text : String)
    (bullets : Option (List String)) : Slide :=
  headerBandPlain title
    :: diagramBox diagram_text
    :: (if pyTruthyList bullets then
          [{ left := 1/2, top := 21/5, width := 9, height := 5/2
             content := .textFrame
               (bulletLoop diagramBullet { word_wrap := some true }
                 (bullets.getD [])) }]
        else [])

/-! ## add_table_slide -/

/-- A fresh table cell, as created by `slide.shapes.add_table`. -/
def emptyCell : TableCell := {}

/-- A header cell after the header loop: `cell.text = header`, solid accent
fill `RGBColor(0,112,192)`, paragraph font bold, `Pt(14)`, white. -/
def headerCell (header : String) : TableCell :=
  { tf := { paragraphs := [{ text := header
                             font := { size := some 14, bold := some true
                                       color := some ⟨255, 255, 255⟩ } }] }
    fill := .solidFill ⟨0, 112, 192⟩ }

/-- A data cell after the row loop: `cell.text = str(value)`, paragraph font
`Pt(12)`, fill untouched. -/
def dataCell (v : Value) : TableCell :=
  { tf := { paragraphs := [{ text := pyStr v
                             font := { size := some 12 } }] } }

/-- `table.cell(r, c)` followed by writing the cell: out-of-range indices
raise `IndexError`. -/
def writeCell (g : Grid) (r c : Nat) (cell : TableCell) :
    Except String Grid :=
  match g[r]? with
  | none => .error "IndexError"
  | some row =>
      if c < row.length then .ok (g.set r (row.set c cell))
      else .error "IndexError"

/-- One `for idx, v in enumerate(vs)` pass writing cells `(r, c)`,
`(r, c+1)`, … of the grid; used for the header loop (`mk = headerCell`,
row 0) and for each data row (`mk = dataCell`). -/
def fillCells (mk : α → TableCell) (g : Grid) (r c : Nat) :
    List α → Except String Grid
  | [] => .ok g
  | v :: vs =>
      match writeCell g r c (mk v) with
      | .error e => .error e
      | .ok g2 => fillCells mk g2 r (c + 1) vs

/-- The outer `for row_idx, row in enumerate(rows)` loop: data row `i` is
written into grid row `i + 1`. -/
def fillDataRows (g : Grid) (r : Nat) :
    List (List Value) → Except String Grid
  | [] => .ok g
  | row :: rest =>
      match fillCells dataCell g r 0 row with
      | .error e => .error e
      | .ok g2 => fillDataRows g2 (r + 1) rest

/-- The table shape of `add_table_slide`: placed at
`Inches(0.5), Inches(1.5), Inches(9), Inches(0.5)` and holding the grid. -/
def tableShape (g : Grid) : Shape :=
  { left := 1/2, top := 3/2, width := 9, height := 1/2
    content := .table g }

/-- `add_table_slide(prs, title, headers, rows)`: plain header bar, then a
table created with `len(rows) + 1` rows and `len(headers)` columns, its
row 0 filled from `headers` and rows `1..` filled from `rows` — with no
length validation of the input rows. -/
def add_table_slide (title : String) (headers : List String)
    (rows : List (List Value)) : Except String Slide :=
  let grid0 : Grid :=
    List.replicate (rows.length + 1) (List.replicate headers.length emptyCell)
  match fillCells headerCell grid0 0 0 headers with
  | .error e => .error e
  | .ok g1 =>
      match fillDataRows g1 1 rows with
      | .error e => .error e
      | .ok g2 => .ok [headerBandPlain title, tableShape g2]

/-! ## accessors used to state the properties -/

/-- The position-and-size band of the `i`-th shape of a slide. -/
def bandAt (s : Slide) (i : Nat) : Option (ℚ × ℚ × ℚ × ℚ) :=
  (s[i]?).map fun sh => (sh.left, sh.top, sh.width, sh.height)

/-- The fill of the `i`-th shape of a slide. -/
def fillAt (s : Slide) (i : Nat) : Option Fill :=
  (s[i]?).map Shape.fill

/-- The text frame of the `i`-th shape of a slide, when it has one. -/
def tfAt (s : Slide) (i : Nat) : Option TextFrame :=
  (s[i]?).bind fun sh =>
    match sh.content with
    | .textFrame tf => some tf
    | .table _ => none

/-- The paragraph texts of the `i`-th shape of a slide, in order. -/
def paraTextsAt (s : Slide) (i : Nat) : Option (List String) :=
  (tfAt s i).map fun tf => tf.paragraphs.map Paragraph.text

/-- The number of paragraphs of the `i`-th shape of a slide. -/
def paraCountAt (s : Slide) (i : Nat) : Option Nat :=
  (tfAt s i).map fun tf => tf.paragraphs.length

/-- The font of the first paragraph of the `i`-th shape of a slide. -/
def firstFontAt (s : Slide) (i : Nat) : Option Font :=
  (tfAt s i).bind fun tf => (tf.paragraphs[0]?).map Paragraph.font

/-- The alignment of the first paragraph of the `i`-th shape of a slide. -/
def firstAlignAt (s : Slide) (i : Nat) : Option (Option Align) :=
  (tfAt s i).bind fun tf => (tf.paragraphs[0]?).map Paragraph.alignment

/-- The table grid of a slide (its second shape, for `add_table_slide`). -/
def tableGridOf (s : Slide) : Grid :=
  match s[1]? with
  | some sh =>
      match sh.content with
      | .table g => g
      | .textFrame _ => []
  | none => []

/-- The table grid of a builder result, `[]` on error. -/
def resultGrid (e : Except String Slide) : Grid :=
  match e with
  | .ok s => tableGridOf s
  | .error _ => []

/-- The header band of a builder result, `none` on error. -/
def resultBandAt (e : Except String Slide) (i : Nat) :
    Option (ℚ × ℚ × ℚ × ℚ) :=
  match e with
  | .ok s => bandAt s i
  | .error _ => none

/-- The paragraph texts of cell `(r, c)` of a builder result's grid. -/
def resultCellTexts (e : Except String Slide) (r c : Nat) :
    Option (List String) :=
  match e with
  | .ok s =>
      ((tableGridOf s)[r]?.bind fun row => row[c]?).map fun cell =>
        cell.tf.paragraphs.map Paragraph.text
  | .error _ => none

/-! ## lemmas about the cell-filling loops -/

theorem set_append_len (pre : List α) (x y : α) (tail : List α) :
    (pre ++ x :: tail).set pre.length y = pre ++ y :: tail := by
  induction pre with
  | nil => rfl
  | cons a l ih => simp [ih]

theorem writeCell_succ (x : List TableCell) (g : Grid) (r c : Nat)
    (cell : TableCell) :
    writeCell (x :: g) (r + 1) c cell
      = Except.map (fun g2 => x :: g2) (writeCell g r c cell) := by
  unfold writeCell
  rw [List.getElem?_cons_succ]
  cases hg : g[r]? with
  | none => rfl
  | some row =>
      by_cases h : c < row.length
      · simp [h, Except.map]
      · simp [h, Except.map]

theorem fillCells_succ (mk : α → TableCell) (vs : List α) :
    ∀ (x : List TableCell) (g : Grid) (r c : Nat),
      fillCells mk (x :: g) (r + 1) c vs
        = Except.map (fun g2 => x :: g2) (fillCells mk g r c vs) := by
  induction vs with
  | nil => intro x g r c; rfl
  | cons v vs ih =>
      intro x g r c
      simp only [fillCells, writeCell_succ]
      cases hg : writeCell g r c (mk v) with
      | error e => simp [Except.map]
      | ok g2 => simp [Except.map, ih]

theorem fillCells_zero (mk : α → TableCell) :
    ∀ (vs : List α) (pre suffix : List TableCell) (rest : Grid),
      vs.length ≤ suffix.length →
      fillCells mk ((pre ++ suffix) :: rest) 0 pre.length vs
        = .ok ((pre ++ (vs.map mk ++ suffix.drop vs.length)) :: rest) := by
  intro vs
  induction vs with
  | nil => intro pre suffix rest _; simp [fillCells]
  | cons v vs ih =>
      intro pre suffix rest h
      cases suffix with
      | nil => simp at h
      | cons s0 suffix =>
          have hlen : pre.length < (pre ++ s0 :: suffix).length := by
            simp
          simp only [fillCells, writeCell, List.getElem?_cons_zero, hlen,
            if_pos, List.set_cons_zero, set_append_len]
          have h2 : vs.length ≤ suffix.length := by simpa using h
          have key := ih (pre ++ [mk v]) suffix rest h2
          simp only [List.append_assoc, List.singleton_append,
            List.length_append, List.length_cons, List.length_nil] at key
          simpa using key

theorem fillDataRows_succ (rows : List (List Value)) :
    ∀ (x : List TableCell) (g : Grid) (r : Nat),
      fillDataRows (x :: g) (r + 1) rows
        = Except.map (fun g2 => x :: g2) (fillDataRows g r rows) := by
  induction rows with
  | nil => intro x g r; rfl
  | cons row rest ih =>
      intro x g r
      simp only [fillDataRows, fillCells_succ]
      cases hg : fillCells dataCell g r 0 row with
      | error e => simp [Except.map]
      | ok g2 => simp [Except.map, ih]

theorem fillDataRows_one (rows : List (List Value)) (x : List TableCell)
    (g : Grid) :
    fillDataRows (x :: g) 1 rows
      = Except.map (fun g2 => x :: g2) (fillDataRows g 0 rows) :=
  fillDataRows_succ rows x g 0

theorem fillDataRows_all (rows : List (List Value)) :
    ∀ (n : Nat), (∀ r ∈ rows, r.length ≤ n) →
      fillDataRows
          (List.replicate rows.length (List.replicate n emptyCell)) 0 rows
        = .ok (rows.map fun r =>
            r.map dataCell ++ List.replicate (n - r.length) emptyCell) := by
  induction rows with
  | nil => intro n _; rfl
  | cons row rest ih =>
      intro n h
      have hrow : row.length ≤ n := h row (by simp)
      have h2 : ∀ r ∈ rest, r.length ≤ n := fun r hr => h r (by simp [hr])
      rw [List.length_cons, List.replicate_succ]
      simp only [fillDataRows]
      have key := fillCells_zero dataCell row []
        (List.replicate n emptyCell)
        (List.replicate rest.length (List.replicate n emptyCell))
        (by simpa using hrow)
      simp only [List.nil_append, List.length_nil, List.drop_replicate] at key
      simp only [key, fillDataRows_succ, ih n h2, Except.map, List.map_cons]

theorem add_table_slide_ok (t : String) (headers : List String)
    (rows : List (List Value))
    (h : ∀ r ∈ rows, r.length ≤ headers.length) :
    add_table_slide t headers rows
      = .ok [headerBandPlain t,
          tableShape (headers.map headerCell
            :: rows.map fun r => r.map dataCell
                ++ List.replicate (headers.length - r.length) emptyCell)] := by
  simp only [add_table_slide]
  rw [List.replicate_succ]
  have hH := fillCells_zero headerCell headers []
    (List.replicate headers.length emptyCell)
    (List.replicate rows.length (List.replicate headers.length emptyCell))
    (by simp)
  simp only [List.nil_append, List.length_nil, List.drop_replicate,
    Nat.sub_self, List.replicate_zero, List.append_nil] at hH
  simp only [hH, fillDataRows_one, fillDataRows_all rows headers.length h,
    Except.map]

/-! ## lemmas about the bullet loop -/

theorem bulletLoopFrom_pos (mk : String → Paragraph) (bs : List String) :
    ∀ (i : Nat) (tf : TextFrame),
      bulletLoopFrom mk (i + 1) tf bs
        = { tf with paragraphs := tf.paragraphs ++ bs.map mk } := by
  induction bs with
  | nil => intro i tf; simp [bulletLoopFrom]
  | cons b bs ih =>
      intro i tf
      simp only [bulletLoopFrom]
      rw [if_neg (by omega)]
      rw [ih]
      simp

theorem bulletLoop_cons (mk : String → Paragraph) (b : String)
    (bs : List String) (ww : Option Bool) (ml mt : Option ℚ) :
    bulletLoop mk
        { paragraphs := [{}], word_wrap := ww
          margin_left := ml, margin_top := mt } (b :: bs)
      = { paragraphs := mk b :: bs.map mk, word_wrap := ww
          margin_left := ml, margin_top := mt } := by
  simp only [bulletLoop, bulletLoopFrom, if_true]
  rw [bulletLoopFrom_pos]
  simp [List.set]

theorem map_text_contentBullet (bs : List String) :
    (bs.map contentBullet).map Paragraph.text = bs := by
  induction bs with
  | nil => rfl
  | cons b bs ih => simp_all [contentBullet]

theorem map_text_diagramBullet (bs : List String) :
    (bs.map diagramBullet).map Paragraph.text = bs := by
  induction bs with
  | nil => rfl
  | cons b bs ih => simp_all [diagramBullet]

/-- Whatever the input, a successful `add_table_slide` returns exactly the
plain header bar followed by one table shape. -/
theorem add_table_slide_shape (t : String) (headers : List String)
    (rows : List (List Value)) (s : Slide)
    (h : add_table_slide t headers rows = .ok s) :
    ∃ g : Grid, s = [headerBandPlain t, tableShape g] := by
  simp only [add_table_slide] at h
  split at h
  · exact absurd h (by simp)
  · split at h
    · exact absurd h (by simp)
    · rename_i g2 heq
      simp only [Except.ok.injEq] at h
      exact ⟨g2, h.symm⟩

/-! ## the claims -/

/-- C1 counterexample: on the spec's own ragged input
(`headers = ["A","B"]`, one row `["x"]`) `add_table_slide` raises nothing at
all — it returns a slide whose grid has a present-but-empty cell at row 1,
column 1 — so no `MalformedTableInput` (which does not exist in the source)
and no descriptive error is produced. -/
theorem table_ragged_no_error :
    (add_table_slide "T" ["A", "B"] [[Value.str "x"]]).isOk = true
      ∧ resultCellTexts (add_table_slide "T" ["A", "B"] [[Value.str "x"]]) 1 1
          = some [""] :=
  ⟨rfl, rfl⟩

/-- C1 amended: `add_table_slide` performs no row-length validation and has
no `MalformedTableInput` error.  Any input whose rows are each no longer
than `headers` completes without error, a short row silently leaving its
trailing cells as empty default cells; a row longer than `headers` instead
fails with the underlying library's `"IndexError"`. -/
theorem table_no_length_validation (t : String) (headers : List String)
    (rows : List (List Value))
    (h : ∀ r ∈ rows, r.length ≤ headers.length) :
    add_table_slide t headers rows
      = .ok [headerBandPlain t,
          tableShape (headers.map headerCell
            :: rows.map fun r => r.map dataCell
                ++ List.replicate (headers.length - r.length) emptyCell)]
      ∧ add_table_slide "T" ["A"] [[Value.str "x", Value.str "y"]]
          = .error "IndexError" :=
  ⟨add_table_slide_ok t headers rows h, rfl⟩

/-- C1 witness: the amended statement evaluated on the ragged input. -/
theorem table_no_length_validation_inst :
    add_table_slide "T" ["A", "B"] [[Value.str "x"]]
      = .ok [headerBandPlain "T",
          tableShape (["A", "B"].map headerCell
            :: [[Value.str "x"]].map fun r => r.map dataCell
                ++ List.replicate (["A", "B"].length - r.length) emptyCell)]
      ∧ add_table_slide "T" ["A"] [[Value.str "x", Value.str "y"]]
          = .error "IndexError" :=
  table_no_length_validation "T" ["A", "B"] [[Value.str "x"]] (by simp)

/-- C2 counterexample: the header region (first shape) of a title slide does
not occupy the same band as the header region of a content slide — the title
banner sits at `(0.5, 2.5)` with size `9 × 1.5`, the content header at
`(0, 0)` with size `10 × 1.2`. -/
theorem title_header_band_differs :
    bandAt (add_title_slide "T" "S") 0 ≠ bandAt (add_content_slide "T" [] "") 0
      ∧ bandAt (add_title_slide "T" "S") 0 = some (1/2, 5/2, 9, 3/2)
      ∧ bandAt (add_content_slide "T" [] "") 0 = some (0, 0, 10, 6/5) := by
  refine ⟨?_, rfl, rfl⟩
  rw [show bandAt (add_title_slide "T" "S") 0 = some (1/2, 5/2, 9, 3/2) from rfl,
      show bandAt (add_content_slide "T" [] "") 0 = some (0, 0, 10, 6/5) from rfl]
  simp only [ne_eq, Option.some.injEq, Prod.mk.injEq, not_and]
  norm_num

/-- C2 amended: the content, diagram and table archetypes share the
identical fixed header band `(0, 0, 10, 1.2)`; the title archetype's banner
occupies a different band, `(0.5, 2.5, 9, 1.5)`. -/
theorem header_band_uniform_except_title (t sub note d : String)
    (bs : List String) (ob : Option (List String))
    (headers : List String) (rows : List (List Value)) (s : Slide)
    (h : add_table_slide t headers rows = .ok s) :
    bandAt (add_content_slide t bs note) 0 = some (0, 0, 10, 6/5)
      ∧ bandAt (add_diagram_slide t d ob) 0 = some (0, 0, 10, 6/5)
      ∧ bandAt s 0 = some (0, 0, 10, 6/5)
      ∧ bandAt (add_title_slide t sub) 0 = some (1/2, 5/2, 9, 3/2) := by
  obtain ⟨g, rfl⟩ := add_table_slide_shape t headers rows s h
  refine ⟨?_, ?_, rfl, ?_⟩ <;>
    simp [bandAt, add_content_slide, add_diagram_slide, add_title_slide,
      headerBandContent, headerBandPlain, titleBanner]

/-- C2 witness: the amended statement evaluated on concrete calls. -/
theorem header_band_uniform_except_title_inst :
    bandAt (add_content_slide "T" [] "") 0 = some (0, 0, 10, 6/5)
      ∧ bandAt (add_diagram_slide "T" "D" none) 0 = some (0, 0, 10, 6/5)
      ∧ bandAt [headerBandPlain "T", tableShape [[headerCell "A"]]] 0
          = some (0, 0, 10, 6/5)
      ∧ bandAt (add_title_slide "T" "S") 0 = some (1/2, 5/2, 9, 3/2) :=
  header_band_uniform_except_title "T" "S" "" "D" [] none ["A"] []
    [headerBandPlain "T", tableShape [[headerCell "A"]]] (by rfl)

/-- C3 counterexample: for the empty bullets sequence the body region of
`add_content_slide` renders 1 paragraph (the text frame's initial blank
paragraph), not `len(bullets) = 0`. -/
theorem content_empty_bullets_count :
    ¬ paraCountAt (add_content_slide "T" [] "") 1
        = some (List.length ([] : List String)) := by
  rw [show paraCountAt (add_content_slide "T" [] "") 1 = some 1 from rfl]
  simp

/-- C3 amended: for every NON-EMPTY `bullets` sequence the body region of
`add_content_slide` renders exactly `len(bullets)` paragraphs, in document
order, with empty-string entries preserved as blank paragraphs (the
paragraph texts are exactly the bullets). -/
theorem content_paragraphs_match_bullets (t note : String)
    (bullets : List String) (h : bullets ≠ []) :
    paraTextsAt (add_content_slide t bullets note) 1 = some bullets
      ∧ paraCountAt (add_content_slide t bullets note) 1
          = some bullets.length := by
  obtain ⟨b, bs, rfl⟩ := List.exists_cons_of_ne_nil h
  constructor <;>
    simp [paraTextsAt, paraCountAt, tfAt, add_content_slide, bulletLoop_cons,
      contentBullet, Function.comp_def, List.map_id']

/-- C3 witness: the amended statement on the spec's scenario 2, including a
blank spacer entry. -/
theorem content_paragraphs_match_bullets_inst :
    paraTextsAt (add_content_slide "Heading" ["line1", "", "line2"] "") 1
        = some ["line1", "", "line2"]
      ∧ paraCountAt (add_content_slide "Heading" ["line1", "", "line2"] "") 1
          = some (["line1", "", "line2"] : List String).length :=
  content_paragraphs_match_bullets "Heading" "" ["line1", "", "line2"]
    (by simp)

/-- C4: on well-formed input (every row exactly `len(headers)` long)
`add_table_slide` returns the plain header bar plus a table whose grid is
row 0 of header cells (accent `RGBColor(0,112,192)` fill, bold white `Pt(14)`
text — see `headerCell`) followed by one row per input row whose cells hold
`str(value)` at `Pt(12)` in the headers' column order (see `dataCell`); the
grid has `len(rows) + 1` rows of `len(headers)` columns each. -/
theorem table_wellformed_grid (t : String) (headers : List String)
    (rows : List (List Value))
    (h : ∀ r ∈ rows, r.length = headers.length) :
    add_table_slide t headers rows
      = .ok [headerBandPlain t,
          tableShape (headers.map headerCell
            :: rows.map fun r => r.map dataCell)]
      ∧ (resultGrid (add_table_slide t headers rows)).length = rows.length + 1
      ∧ ∀ row ∈ resultGrid (add_table_slide t headers rows),
          row.length = headers.length := by
  have hle : ∀ r ∈ rows, r.length ≤ headers.length := fun r hr => (h r hr).le
  have hok := add_table_slide_ok t headers rows hle
  have hrw : (rows.map fun r => r.map dataCell
      ++ List.replicate (headers.length - r.length) emptyCell)
      = rows.map fun r => r.map dataCell := by
    apply List.map_congr_left
    intro r hr
    rw [h r hr, Nat.sub_self, List.replicate_zero, List.append_nil]
  rw [hrw] at hok
  have hg : resultGrid (add_table_slide t headers rows)
      = headers.map headerCell :: rows.map fun r => r.map dataCell := by
    rw [show resultGrid (add_table_slide t headers rows)
        = resultGrid (.ok [headerBandPlain t,
            tableShape (headers.map headerCell
              :: rows.map fun r => r.map dataCell)]) from by rw [hok]]
    rfl
  refine ⟨hok, ?_, ?_⟩
  · rw [hg]; simp
  · rw [hg]
    intro row hrow
    rcases List.mem_cons.mp hrow with rfl | hmem
    · simp
    · obtain ⟨r, hr, rfl⟩ := List.mem_map.mp hmem
      simp [h r hr]

/-- C4 witness: the grid shape on the spec's scenario 3 table. -/
theorem table_wellformed_grid_inst :
    add_table_slide "T" ["Metric", "Before", "After"]
        [[Value.str "Wave time", Value.str "45 min", Value.str "32 min"]]
      = .ok [headerBandPlain "T",
          tableShape (["Metric", "Before", "After"].map headerCell
            :: [[Value.str "Wave time", Value.str "45 min",
                 Value.str "32 min"]].map fun r => r.map dataCell)]
      ∧ (resultGrid (add_table_slide "T" ["Metric", "Before", "After"]
          [[Value.str "Wave time", Value.str "45 min",
            Value.str "32 min"]])).length
        = ([[Value.str "Wave time", Value.str "45 min",
             Value.str "32 min"]] : List (List Value)).length + 1
      ∧ ∀ row ∈ resultGrid (add_table_slide "T" ["Metric", "Before", "After"]
          [[Value.str "Wave time", Value.str "45 min",
            Value.str "32 min"]]),
          row.length = (["Metric", "Before", "After"] : List String).length :=
  table_wellformed_grid "T" ["Metric", "Before", "After"]
    [[Value.str "Wave time", Value.str "45 min", Value.str "32 min"]]
    (by simp)

/-- C5: `buildTitleSlide("Buffer Optimization", "WMS")` yields exactly two
regions — the colored banner `(0.5, 2.5, 9, 1.5)` (which straddles the
mid-canvas height) holding "Buffer Optimization" bold, white, `Pt(40)`,
centered, and below it the subtitle region holding "WMS" in gray
`RGBColor(100,100,100)`, centered — and no third region; and for every
title, an empty subtitle omits the subtitle region (one region only, no
error). -/
theorem title_slide_scenario :
    (add_title_slide "Buffer Optimization" "WMS").length = 2
      ∧ bandAt (add_title_slide "Buffer Optimization" "WMS") 0
          = some (1/2, 5/2, 9, 3/2)
      ∧ fillAt (add_title_slide "Buffer Optimization" "WMS") 0
          = some (.solidFill ⟨0, 112, 192⟩)
      ∧ paraTextsAt (add_title_slide "Buffer Optimization" "WMS") 0
          = some ["Buffer Optimization"]
      ∧ firstFontAt (add_title_slide "Buffer Optimization" "WMS") 0
          = some { size := some 40, bold := some true
                   color := some ⟨255, 255, 255⟩ }
      ∧ firstAlignAt (add_title_slide "Buffer Optimization" "WMS") 0
          = some (some .center)
      ∧ bandAt (add_title_slide "Buffer Optimization" "WMS") 1
          = some (1/2, 21/5, 9, 4/5)
      ∧ paraTextsAt (add_title_slide "Buffer Optimization" "WMS") 1
          = some ["WMS"]
      ∧ firstFontAt (add_title_slide "Buffer Optimization" "WMS") 1
          = some { size := some 24, color := some ⟨100, 100, 100⟩ }
      ∧ firstAlignAt (add_title_slide "Buffer Optimization" "WMS") 1
          = some (some .center)
      ∧ (5/2 : ℚ) < canvasHeight / 2 ∧ canvasHeight / 2 < 5/2 + 3/2
      ∧ ∀ t, (add_title_slide t "").length = 1 :=
  ⟨rfl, rfl, rfl, rfl, rfl, rfl, rfl, rfl, rfl, rfl,
    by norm_num [canvasHeight], by norm_num [canvasHeight], fun _ => rfl⟩

/-- C6 counterexample: a supplied-but-empty bullets list does NOT produce a
bullets text region — the slide has only the header and the diagram box and
no third shape, because `if bullets:` is falsy on an empty list. -/
theorem diagram_supplied_empty_bullets_omitted :
    (add_diagram_slide "T" "D" (some [])).length = 2
      ∧ tfAt (add_diagram_slide "T" "D" (some [])) 2 = none :=
  ⟨rfl, rfl⟩

/-- C6 amended: for every call, the region below the header band is the
fixed-height light-gray `RGBColor(240,240,240)` rectangle at
`(0.5, 1.5, 9, 2.5)` whose text is the diagram text in the monospace font
`"Courier New"` at `Pt(14)`; and whenever a NON-EMPTY bullets sequence is
supplied, a text region below the diagram box at `(0.5, 4.2, 9, 2.5)`
contains one paragraph per bullet string, in order. -/
theorem diagram_box_and_bullets (t d : String) (ob : Option (List String))
    (bs : List String) :
    bandAt (add_diagram_slide t d ob) 1 = some (1/2, 3/2, 9, 5/2)
      ∧ fillAt (add_diagram_slide t d ob) 1
          = some (.solidFill ⟨240, 240, 240⟩)
      ∧ paraTextsAt (add_diagram_slide t d ob) 1 = some [d]
      ∧ firstFontAt (add_diagram_slide t d ob) 1
          = some { size := some 14, name := some "Courier New"
                   color := some ⟨0, 0, 0⟩ }
      ∧ (bs ≠ [] →
          bandAt (add_diagram_slide t d (some bs)) 2 = some (1/2, 21/5, 9, 5/2)
            ∧ paraTextsAt (add_diagram_slide t d (some bs)) 2 = some bs) := by
  refine ⟨?_, ?_, ?_, ?_, fun h => ?_⟩
  · simp [bandAt, add_diagram_slide, diagramBox]
  · simp [fillAt, add_diagram_slide, diagramBox]
  · simp [paraTextsAt, tfAt, add_diagram_slide, diagramBox]
  · simp [firstFontAt, tfAt, add_diagram_slide, diagramBox]
  · obtain ⟨b, bs2, rfl⟩ := List.exists_cons_of_ne_nil h
    constructor
    · simp [bandAt, add_diagram_slide, pyTruthyList]
    · simp [paraTextsAt, tfAt, add_diagram_slide, pyTruthyList,
        bulletLoop_cons, diagramBullet, Function.comp_def, List.map_id']

/-- C6 witness: the amended statement evaluated on a concrete diagram slide
with one bullet. -/
theorem diagram_box_and_bullets_inst :
    bandAt (add_diagram_slide "T" "D" none) 1 = some (1/2, 3/2, 9, 5/2)
      ∧ fillAt (add_diagram_slide "T" "D" none) 1
          = some (.solidFill ⟨240, 240, 240⟩)
      ∧ paraTextsAt (add_diagram_slide "T" "D" none) 1 = some ["D"]
      ∧ bandAt (add_diagram_slide "T" "D" (some ["u"])) 2
          = some (1/2, 21/5, 9, 5/2)
      ∧ paraTextsAt (add_diagram_slide "T" "D" (some ["u"])) 2
          = some ["u"] := by
  have h := diagram_box_and_bullets "T" "D" none ["u"]
  exact ⟨h.1, h.2.1, h.2.2.1, (h.2.2.2.2 (by simp)).1, (h.2.2.2.2 (by simp)).2⟩

/-- C7: every archetype builder is deterministic — two calls with identical
input produce identical slides (identical shape lists, hence identical
region position, size, text and style), since each builder is a pure
function of its input and the shared constants. -/
theorem builders_deterministic :
    (∀ t sub, add_title_slide t sub = add_title_slide t sub)
      ∧ (∀ t bs note, add_content_slide t bs note = add_content_slide t bs note)
      ∧ (∀ t d ob, add_diagram_slide t d ob = add_diagram_slide t d ob)
      ∧ (∀ t headers rows,
          add_table_slide t headers rows = add_table_slide t headers rows) :=
  ⟨fun _ _ => rfl, fun _ _ _ => rfl, fun _ _ _ => rfl, fun _ _ _ => rfl⟩

/-- C8: with a non-empty note, `add_content_slide` renders the note region
(third shape) identically for any two bullets sequences, at the fixed band
`(0.5, 6.5, 9, 0.5)` near the canvas bottom, in `Pt(14)` italic gray
`RGBColor(128,128,128)` text. -/
theorem note_region_fixed (t note : String) (bullets bullets2 : List String)
    (h : note ≠ "") :
    (add_content_slide t bullets note)[2]?
        = (add_content_slide t bullets2 note)[2]?
      ∧ bandAt (add_content_slide t bullets note) 2 = some (1/2, 13/2, 9, 1/2)
      ∧ firstFontAt (add_content_slide t bullets note) 2
          = some { size := some 14, italic := some true
                   color := some ⟨128, 128, 128⟩ }
      ∧ paraTextsAt (add_content_slide t bullets note) 2 = some [note]
      ∧ (13/2 : ℚ) + 1/2 < canvasHeight := by
  refine ⟨?_, ?_, ?_, ?_, by norm_num [canvasHeight]⟩ <;>
    simp [add_content_slide, bandAt, firstFontAt, tfAt, paraTextsAt,
      noteBox, h]

/-- C8 witness: the note region on concrete calls with different bullets. -/
theorem note_region_fixed_inst :
    (add_content_slide "T" ["a"] "n")[2]? = (add_content_slide "T" [] "n")[2]?
      ∧ bandAt (add_content_slide "T" ["a"] "n") 2 = some (1/2, 13/2, 9, 1/2)
      ∧ firstFontAt (add_content_slide "T" ["a"] "n") 2
          = some { size := some 14, italic := some true
                   color := some ⟨128, 128, 128⟩ }
      ∧ paraTextsAt (add_content_slide "T" ["a"] "n") 2 = some ["n"]
      ∧ (13/2 : ℚ) + 1/2 < canvasHeight :=
  note_region_fixed "T" "n" ["a"] [] (by simp)

/-- C9: the body region of `add_content_slide` always renders
`max(1, len(bullets))` paragraphs — in particular, with an empty bullets
sequence it still contains exactly one blank paragraph (the text frame's
initial paragraph), never zero. -/
theorem content_empty_bullets_blank_paragraph (t note : String)
    (bullets : List String) :
    paraCountAt (add_content_slide t bullets note) 1
        = some (max 1 bullets.length)
      ∧ paraTextsAt (add_content_slide t [] note) 1 = some [""] := by
  constructor
  · cases bullets with
    | nil =>
        simp [paraCountAt, tfAt, add_content_slide, bulletLoop, bulletLoopFrom]
    | cons b bs =>
        simp only [add_content_slide, bulletLoop_cons, paraCountAt, tfAt]
        simp [Nat.max_eq_right]
  · simp [paraTextsAt, tfAt, add_content_slide, bulletLoop, bulletLoopFrom]

/-- C10: `add_diagram_slide` treats a supplied empty bullets list exactly
like an absent bullets argument — `if bullets:` is falsy on both, so the
produced slides are equal (the bullets text region is omitted entirely). -/
theorem diagram_empty_bullets_eq_none (t d : String) :
    add_diagram_slide t d (some []) = add_diagram_slide t d none :=
  rfl
